import Mathlib

/-!
Shallow embedding of the x402 merchant-demo payment guard.

Sources embedded:
- `app/x402_handler.py` : `PaymentRequirements`, `X402PaymentVerifier.__init__`,
  `X402PaymentVerifier.__call__` (the per-request guard).
- `app/facilitator_client.py` : `FacilitatorClient.__init__`,
  `FacilitatorClient.verify_payment`, `FacilitatorClient.settle_payment`.
- `app/config.py` : `Settings.validate`.

Modelling conventions:
- Python/JSON values are the inductive `Json`; Python `None` at the "missing"
  level (e.g. `dict.get` misses) is `Option Json`'s `none`.
- Python truthiness is `jsonTruthy` / `optJsonTruthy` / `optStrTruthy`.
- External library effects (base64+JSON decoding of the header, the two HTTP
  calls to the facilitator) are oracles passed in as parameters: the guard is
  a pure function of (requirements, decode oracle, facilitator oracle, raw
  request headers).
- A raised `HTTPException(status_code=402, detail={... error, accepts ...})`
  is the outcome `GuardOutcome.http402 error reqs`; an unhandled Python
  exception (e.g. `AttributeError` on `.strip()` of a non-string nonce, or
  `KeyError` on `result["data"]`) is `GuardOutcome.pyError`.
-/

/-- JSON / Python values, as produced by `json.loads`. Numbers are modelled as
integers (the repository only moves integer token amounts and status codes). -/
inductive Json where
  | null : Json
  | bool : Bool → Json
  | num : Int → Json
  | str : String → Json
  | arr : List Json → Json
  | obj : List (String × Json) → Json

/-- Python truthiness of a value (`bool(v)`). -/
def jsonTruthy : Json → Bool
  | Json.null => false
  | Json.bool b => b
  | Json.num n => n != 0
  | Json.str s => !s.isEmpty
  | Json.arr l => !l.isEmpty
  | Json.obj l => !l.isEmpty

/-- Truthiness of a value-or-`None` (`dict.get` result). -/
def optJsonTruthy : Option Json → Bool
  | none => false
  | some v => jsonTruthy v

/-- Truthiness of a string-or-`None` (header lookup result). -/
def optStrTruthy : Option String → Bool
  | none => false
  | some s => !s.isEmpty

/-- `d[k]` / `d.get(k)` on a JSON object; on a non-object (Python `TypeError`,
caught by the callers we embed) or a missing key it is `none`. -/
def pyGetKey : Json → String → Option Json
  | Json.obj l, k => l.lookup k
  | _, _ => none

/-- Python `a or b` on values-or-`None`: `a` if truthy, else `b`. -/
def pyOrJ (a b : Option Json) : Option Json :=
  if optJsonTruthy a then a else b

/-- Python `a or b` on strings-or-`None` (the header fallback chain). -/
def pyOrStr (a b : Option String) : Option String :=
  if optStrTruthy a then a else b

/-- `str.lower()` (ASCII case folding, which covers every string the
repository lower-cases: hex hashes and addresses). -/
def pyLower (s : String) : String :=
  ⟨s.data.map Char.toLower⟩

/-- `str.strip()` with no argument: drop leading and trailing whitespace. -/
def pyStrip (s : String) : String :=
  ⟨((s.data.dropWhile Char.isWhitespace).reverse.dropWhile Char.isWhitespace).reverse⟩

/-- `s.startswith(p)` (case-sensitive, like Python's). -/
def pyStartsWith (s p : String) : Bool :=
  List.isPrefixOf p.data s.data

/-- Whether `pat` occurs as a contiguous run inside `s`. -/
def listContainsSub (pat : List Char) : List Char → Bool
  | [] => pat.isEmpty
  | c :: t => List.isPrefixOf pat (c :: t) || listContainsSub pat t

/-- Python `sub in s` substring test. -/
def pyIn (sub s : String) : Bool :=
  listContainsSub sub.data s.data

/-- Everything after the first occurrence of `c` (drops the rest when `c`
never occurs; callers only use it when `c` occurs). -/
def afterChar (c : Char) : List Char → List Char
  | [] => []
  | x :: t => if x = c then t else afterChar c t

/-- Rendering of a value inside an f-string (`f"...{err}"`); a plain string
renders as itself, which is the only case the verified claims exercise. -/
def pyStr : Json → String
  | Json.str s => s
  | Json.null => "None"
  | Json.bool true => "True"
  | Json.bool false => "False"
  | Json.num n => toString n
  | Json.arr _ => "[...]"
  | Json.obj _ => "\x7b...\x7d"

/-- x402_handler.py:124-127: `_, tx_hash = x_payment_hash.split(":", 1)` when
a colon occurs (everything after the first colon), else the whole header. -/
def hashFromHeader (h : String) : String :=
  if pyIn ":" h then ⟨afterChar ':' h.data⟩ else h

/-- Python dict assignment `d[k] = v`: replace in place if the key exists,
else append (insertion order preserved, as in a Python dict). -/
def pyDictSet (d : List (String × String)) (k v : String) : List (String × String) :=
  if (d.lookup k).isSome then
    d.map (fun kv => if kv.1 = k then (k, v) else kv)
  else d ++ [(k, v)]

/-- `{k.lower(): v for k, v in request.headers.items()}` (x402_handler.py:68). -/
def lowerHeaders (hs : List (String × String)) : List (String × String) :=
  hs.foldl (fun acc kv => pyDictSet acc (pyLower kv.1) kv.2) []

/-- `PaymentRequirements` pydantic model (x402_handler.py:14-23). -/
structure PaymentRequirements where
  scheme : String
  network : String
  maxAmountRequired : String
  resource : String
  description : String
  payTo : String
  maxTimeoutSeconds : Nat := 60
  asset : String
  extra : Option Json := none

/-- `X402PaymentVerifier.__init__` (x402_handler.py:33-54): the immutable
`self.payment_requirements` built once from the constructor arguments. -/
def X402init (network pay_to_address payment_asset asset_name max_amount_required
    resource resource_description : String) (eip712_version : String := "2") :
    PaymentRequirements :=
  { scheme := "exact"
    network := network
    maxAmountRequired := max_amount_required
    resource := resource
    description := resource_description
    payTo := pay_to_address
    asset := payment_asset
    extra := some (Json.obj [("name", Json.str asset_name), ("version", Json.str eip712_version)]) }

/-- Outcome of the base64-decode + UTF-8 decode + `json.loads` of the
`X-Payment` header value; `err` carries `str(e)` of the raised exception. -/
inductive DecodeOutcome where
  | err : String → DecodeOutcome
  | ok : Json → DecodeOutcome

/-- Arguments of the outbound `facilitator_client.verify_payment` call
(x402_handler.py:145-181). -/
structure VerifyArgs where
  transaction_hash : String
  chain : String
  seller_address : String
  expected_amount : String
  expected_token : String
  metadata : Json

/-- Arguments of the outbound `facilitator_client.settle_payment` call
(x402_handler.py:210-214). -/
structure SettleArgs where
  verification_id : Json
  destination_address : String
  metadata : Json

/-- The facilitator as an oracle: what the two awaited calls return
(already-built result dicts, per `FacilitatorClient`'s contract). -/
structure FacOracle where
  verify : VerifyArgs → Json
  settle : SettleArgs → Json

/-- Observable outcome of one guard invocation: a returned
`(granted, self.payment_requirements)` pair, a raised
`HTTPException(402, {..., "error": error, "accepts": reqs})`, or an
unhandled Python exception. -/
inductive GuardOutcome where
  | ret : Bool → PaymentRequirements → GuardOutcome
  | http402 : String → PaymentRequirements → GuardOutcome
  | pyError : GuardOutcome

/-- Result of one guard invocation together with the trace of outbound
facilitator calls it made. -/
structure GuardResult where
  outcome : GuardOutcome
  verifyCalls : List VerifyArgs
  settleCalls : List SettleArgs

/-- `tx_hash = payment_payload_obj["payload"]["authorization"]["nonce"]`
with the enclosing try/except (x402_handler.py:117-120). -/
def extractNonce (j : Json) : Option Json :=
  (pyGetKey j "payload").bind (fun p => pyGetKey p "authorization")
    |>.bind (fun a => pyGetKey a "nonce")

/-- `payer = payment_payload_obj["payload"]["authorization"]["from"]` with the
enclosing try/except (x402_handler.py:162-166). -/
def extractPayer (j : Json) : Option Json :=
  (pyGetKey j "payload").bind (fun p => pyGetKey p "authorization")
    |>.bind (fun a => pyGetKey a "from")

/-- The metadata bag of the verify call (x402_handler.py:151-166): source tag
and resource, plus the decoded payload and the payer address when present. -/
def buildMetadata (g : PaymentRequirements) (payload : Option Json) : Json :=
  let base := [("source", Json.str "x402_merchant_demo"), ("resource", Json.str g.resource)]
  match payload with
  | none => Json.obj base
  | some p =>
    let withPayload := base ++ [("paymentPayload", p)]
    match extractPayer p with
    | some payer => Json.obj (withPayload ++ [("payer", payer)])
    | none => Json.obj withPayload

/-- Normalization (x402_handler.py:139-142) and the verify request fields
(x402_handler.py:144-166): strip, ensure a (case-sensitive) `0x` prefix, then
lower-case when passed as `transaction_hash`. -/
def mkVerifyArgs (g : PaymentRequirements) (payload : Option Json) (s : String) :
    VerifyArgs :=
  let s1 := pyStrip s
  let txh := if pyStartsWith s1 "0x" then s1 else "0x" ++ s1
  { transaction_hash := pyLower txh
    chain := g.network
    seller_address := pyLower g.payTo
    expected_amount := g.maxAmountRequired
    expected_token := pyLower g.asset
    metadata := buildMetadata g payload }

/-- x402_handler.py:197-201: the verification-id extraction, a Python `or`
chain (by truthiness) over the three accepted key names. -/
def idLookup (d : Json) : Option Json :=
  pyOrJ (pyOrJ (pyGetKey d "verification_id") (pyGetKey d "id"))
    (pyGetKey d "verificationId")

/-- x402_handler.py:195-228: given `verification_data = result["data"]`, grant
without settling when the id chain is falsy, else settle and classify. -/
def settleStep (g : PaymentRequirements) (fac : FacOracle) (vargs : VerifyArgs)
    (d : Json) : GuardResult :=
  let vid := idLookup d
  if !optJsonTruthy vid then ⟨GuardOutcome.ret true g, [vargs], []⟩
  else
    let sargs : SettleArgs :=
      { verification_id := vid.getD Json.null
        destination_address := pyLower g.payTo
        metadata := Json.obj [("source", Json.str "x402_merchant_demo")] }
    let sres := fac.settle sargs
    if !optJsonTruthy (pyGetKey sres "success") then
      ⟨GuardOutcome.http402
        ("Payment settlement failed: " ++ pyStr ((pyGetKey sres "error").getD Json.null)) g,
        [vargs], [sargs]⟩
    else ⟨GuardOutcome.ret true g, [vargs], [sargs]⟩

/-- x402_handler.py:183-228: classify the verify result (`result.get("success")`
by truthiness), then `result["data"]` (a `KeyError` when absent), then the
id extraction / settlement step. -/
def afterVerify (g : PaymentRequirements) (fac : FacOracle) (vargs : VerifyArgs)
    (result : Json) : GuardResult :=
  if !optJsonTruthy (pyGetKey result "success") then
    ⟨GuardOutcome.http402
      ("Payment verification failed: " ++
        pyStr ((pyGetKey result "error").getD (Json.str "verification failed"))) g,
      [vargs], []⟩
  else
    match pyGetKey result "data" with
    | none => ⟨GuardOutcome.pyError, [vargs], []⟩
    | some d => settleStep g fac vargs d

/-- x402_handler.py:168-181: build the verify arguments and make the call. -/
def verifyPhase (g : PaymentRequirements) (fac : FacOracle) (payload : Option Json)
    (s : String) : GuardResult :=
  afterVerify g fac (mkVerifyArgs g payload s) (fac.verify (mkVerifyArgs g payload s))

/-- x402_handler.py:122-142: fall back to the hash header when the nonce is
falsy, fail when no truthy identifier remains, then require it to be a string
(`.strip()` on a non-string raises). -/
def hashPhase (g : PaymentRequirements) (fac : FacOracle) (payload : Option Json)
    (tx0 : Option Json) (xph : Option String) : GuardResult :=
  let tx := if !optJsonTruthy tx0 && optStrTruthy xph then
      some (Json.str (hashFromHeader (xph.getD ""))) else tx0
  if !optJsonTruthy tx then
    ⟨GuardOutcome.http402 "Transaction hash not found in payment headers" g, [], []⟩
  else
    match tx with
    | some (Json.str s) => verifyPhase g fac payload s
    | _ => ⟨GuardOutcome.pyError, [], []⟩

/-- x402_handler.py:92-120: decode the primary header when truthy; a decode
failure is a 402 naming the exception; otherwise extract the nonce. -/
def decodePhase (g : PaymentRequirements) (decode : String → DecodeOutcome)
    (fac : FacOracle) (xp xph : Option String) : GuardResult :=
  if optStrTruthy xp then
    match decode (xp.getD "") with
    | DecodeOutcome.err e =>
      ⟨GuardOutcome.http402 ("Invalid X-Payment payload: " ++ e) g, [], []⟩
    | DecodeOutcome.ok j => hashPhase g fac (some j) (extractNonce j) xph
  else hashPhase g fac none none xph

/-- x402_handler.py:80-90: neither header truthy — return the paywall pair
when the Accept header mentions `text/html`, else raise the 402 directly. -/
def noHeaderBranch (g : PaymentRequirements) (accept : String) : GuardResult :=
  if pyIn "text/html" accept then ⟨GuardOutcome.ret false g, [], []⟩
  else ⟨GuardOutcome.http402 "X-Payment header is required." g, [], []⟩

/-- `X402PaymentVerifier.__call__` (x402_handler.py:58-228), as a function of
the immutable requirements, the decode oracle, the facilitator oracle and the
raw request headers. -/
def guardCall (g : PaymentRequirements) (decode : String → DecodeOutcome)
    (fac : FacOracle) (hs : List (String × String)) : GuardResult :=
  let headers := lowerHeaders hs
  let xp := headers.lookup "x-payment"
  let xph := pyOrStr (headers.lookup "x-payment-hash") (headers.lookup "x-paymenthash")
  let accept := (headers.lookup "accept").getD ""
  if !optStrTruthy xp && !optStrTruthy xph then noHeaderBranch g accept
  else decodePhase g decode fac xp xph

/-- The transport's view of one `httpx` POST: either the `client.post` call
raised (`exn` carries `str(e)`), or a response came back with a status code,
the outcome of `.json()` on its body, and its `.text`. -/
structure HttpResponse where
  status_code : Nat
  jsonBody : Except String Json
  text : String

/-- Outcome of the awaited `client.post(...)` inside the try/except. -/
inductive Transport where
  | exn : String → Transport
  | resp : HttpResponse → Transport

/-- How one facilitator-client method ends: a returned result dict, or an
exception escaping past the method's boundary. -/
inductive CallResult where
  | ret : Json → CallResult
  | raised : String → CallResult

/-- `FacilitatorClient.verify_payment` (facilitator_client.py:130-174),
response classification: the try/except wraps only `client.post`; on a 200
response `resp.json()` runs outside it, so a 200 body that fails JSON
decoding raises past the boundary. -/
def FacilitatorClient.verify_payment (t : Transport) : CallResult :=
  match t with
  | Transport.exn e =>
    CallResult.ret (Json.obj [("success", Json.bool false), ("error", Json.str e)])
  | Transport.resp r =>
    if r.status_code = 200 then
      match r.jsonBody with
      | Except.ok d =>
        CallResult.ret (Json.obj [("success", Json.bool true), ("data", d)])
      | Except.error e => CallResult.raised e
    else
      CallResult.ret (Json.obj
        [("success", Json.bool false),
         ("error", Json.str ("HTTP " ++ toString r.status_code ++ ": " ++ r.text)),
         ("status_code", Json.num (r.status_code : Int))])

/-- `FacilitatorClient.settle_payment` (facilitator_client.py:176-219),
response classification: same structure as `verify_payment`, including the
unguarded `resp.json()` on the 200 path. -/
def FacilitatorClient.settle_payment (t : Transport) : CallResult :=
  match t with
  | Transport.exn e =>
    CallResult.ret (Json.obj [("success", Json.bool false), ("error", Json.str e)])
  | Transport.resp r =>
    if r.status_code = 200 then
      match r.jsonBody with
      | Except.ok d =>
        CallResult.ret (Json.obj [("success", Json.bool true), ("data", d)])
      | Except.error e => CallResult.raised e
    else
      CallResult.ret (Json.obj
        [("success", Json.bool false),
         ("error", Json.str ("HTTP " ++ toString r.status_code ++ ": " ++ r.text)),
         ("status_code", Json.num (r.status_code : Int))])

/-- `FacilitatorClient.__init__` (facilitator_client.py:127-128): the body is
only `self.base_url = base_url`; there is no validation, so construction
always succeeds, whatever the base URL. `Except` records whether a
construction-time error is raised. -/
def FacilitatorClient.construct (base_url : String) : Except String String :=
  Except.ok base_url

/-- The environment variables `app/config.py` reads (`os.getenv` results;
`none` = unset). -/
structure Env where
  MERCHANT_PAYOUT_WALLET : Option String
  OXMETA_TREASURY_WALLET : Option String
  FACILITATOR_BASE_URL : Option String
  CHAIN : Option String

/-- `Settings.CHAIN` (config.py:41): `os.getenv("CHAIN", "base-sepolia")`. -/
def Settings.chainOf (e : Env) : String :=
  e.CHAIN.getD "base-sepolia"

/-- `Settings.validate` (config.py:102-131): the checks in source order; an
`Except.error` is the raised `ValueError`'s message (quotes around the chain
names elided). `config.py` runs this at import (config.py:160-171) and
re-raises, so a failure is fatal before any request is served. -/
def Settings.validate (e : Env) : Except String Unit :=
  if !optStrTruthy e.MERCHANT_PAYOUT_WALLET then
    Except.error "Missing MERCHANT_PAYOUT_WALLET environment variable\nPlease set it in your .env file"
  else if !pyStartsWith (e.MERCHANT_PAYOUT_WALLET.getD "") "0x" then
    Except.error "MERCHANT_PAYOUT_WALLET must be a valid Ethereum address starting with 0x"
  else if (e.MERCHANT_PAYOUT_WALLET.getD "").length ≠ 42 then
    Except.error "MERCHANT_PAYOUT_WALLET must be 42 characters long (0x + 40 hex chars)"
  else if !optStrTruthy e.OXMETA_TREASURY_WALLET then
    Except.error "Missing OXMETA_TREASURY_WALLET environment variable"
  else if !optStrTruthy e.FACILITATOR_BASE_URL then
    Except.error "Missing FACILITATOR_BASE_URL environment variable"
  else if Settings.chainOf e ∉ (["base", "base-sepolia"] : List String) then
    Except.error ("Invalid CHAIN: " ++ Settings.chainOf e ++ ". Must be base or base-sepolia")
  else Except.ok ()

/-! ### Helper lemmas about the guard pipeline -/

theorem settleStep_verifyCalls (g : PaymentRequirements) (f : FacOracle)
    (v : VerifyArgs) (d : Json) : (settleStep g f v d).verifyCalls = [v] := by
  unfold settleStep
  dsimp only
  repeat' split
  all_goals rfl

theorem afterVerify_verifyCalls (g : PaymentRequirements) (f : FacOracle)
    (v : VerifyArgs) (R : Json) : (afterVerify g f v R).verifyCalls = [v] := by
  unfold afterVerify
  split
  · rfl
  · split
    · rfl
    · exact settleStep_verifyCalls ..

/-- Every run of the guard either makes no facilitator call at all, or makes
exactly one verify call and hands its result to `afterVerify`. -/
theorem guard_cases (g : PaymentRequirements) (d : String → DecodeOutcome)
    (f : FacOracle) (hs : List (String × String)) :
    ((guardCall g d f hs).verifyCalls = [] ∧ (guardCall g d f hs).settleCalls = []) ∨
    ∃ v, guardCall g d f hs = afterVerify g f v (f.verify v) := by
  unfold guardCall noHeaderBranch decodePhase hashPhase verifyPhase
  dsimp only
  repeat' split
  all_goals first
    | exact Or.inl ⟨rfl, rfl⟩
    | exact Or.inr ⟨_, rfl⟩

/-- If a verify call was made, the whole run is `afterVerify` on its result. -/
theorem guard_reaches_verify (g : PaymentRequirements) (d : String → DecodeOutcome)
    (f : FacOracle) (hs : List (String × String))
    (h : (guardCall g d f hs).verifyCalls ≠ []) :
    ∃ v, guardCall g d f hs = afterVerify g f v (f.verify v) := by
  rcases guard_cases g d f hs with ⟨h1, _⟩ | h2
  · exact absurd h1 h
  · exact h2

theorem afterVerify_on_failure (g : PaymentRequirements) (f : FacOracle)
    (v : VerifyArgs) (E : String) :
    afterVerify g f v (Json.obj [("success", Json.bool false), ("error", Json.str E)]) =
      ⟨GuardOutcome.http402 ("Payment verification failed: " ++ E) g, [v], []⟩ := rfl

theorem afterVerify_on_success (g : PaymentRequirements) (f : FacOracle)
    (v : VerifyArgs) (D : Json) :
    afterVerify g f v (Json.obj [("success", Json.bool true), ("data", D)]) =
      settleStep g f v D := rfl

theorem settleStep_settle_fail (g : PaymentRequirements) (f : FacOracle)
    (v : VerifyArgs) (d : Json) (E : String)
    (hid : optJsonTruthy (idLookup d) = true)
    (hs : ∀ a, f.settle a = Json.obj [("success", Json.bool false), ("error", Json.str E)]) :
    (settleStep g f v d).outcome =
      GuardOutcome.http402 ("Payment settlement failed: " ++ E) g := by
  unfold settleStep
  dsimp only
  simp only [hid, Bool.not_true, Bool.false_eq_true, if_false, hs]
  rfl

theorem pyDictSet_subset (d : List (String × String)) (k v : String) :
    ∀ p ∈ pyDictSet d k v, p.1 = k ∨ p ∈ d := by
  intro p hp
  unfold pyDictSet at hp
  split at hp
  · rcases List.mem_map.1 hp with ⟨kv, hkv, hf⟩
    by_cases h : kv.1 = k
    · left; rw [← hf]; simp [h]
    · right; rw [← hf]; simp [h]; exact hkv
  · rcases List.mem_append.1 hp with h | h
    · right; exact h
    · left; simp at h; rw [h]

theorem lowerHeaders_key_mem (hs : List (String × String)) (acc : List (String × String)) :
    ∀ p ∈ hs.foldl (fun acc kv => pyDictSet acc (pyLower kv.1) kv.2) acc,
      (∃ kv ∈ hs, p.1 = pyLower kv.1) ∨ p ∈ acc := by
  induction hs generalizing acc with
  | nil => intro p hp; right; simpa using hp
  | cons a t ih =>
    intro p hp
    rcases ih (pyDictSet acc (pyLower a.1) a.2) p hp with ⟨kv, hkv, he⟩ | hin
    · exact Or.inl ⟨kv, List.mem_cons_of_mem _ hkv, he⟩
    · rcases pyDictSet_subset acc (pyLower a.1) a.2 p hin with he | hin2
      · exact Or.inl ⟨a, List.mem_cons_self _ _, he⟩
      · exact Or.inr hin2

/-- A header name absent (case-insensitively) from the raw headers is absent
from the lowered header dict. -/
theorem lowerHeaders_lookup_none (hs : List (String × String)) (key : String)
    (h : ∀ kv ∈ hs, pyLower kv.1 ≠ key) : (lowerHeaders hs).lookup key = none := by
  rw [List.lookup_eq_none_iff]
  intro p hp
  rcases lowerHeaders_key_mem hs [] p hp with ⟨kv, hkv, he⟩ | hin
  · rw [bne_iff_ne, he]
    exact fun hc => (h kv hkv) hc.symm
  · simp at hin

/-- A suffix is a contained substring: used to read off that the denial error
text contains the facilitator's error string. -/
theorem listContainsSub_suffix (pat s : List Char) :
    listContainsSub pat (s ++ pat) = true := by
  induction s with
  | nil =>
    cases pat with
    | nil => rfl
    | cons c t => simp [listContainsSub]
  | cons c t ih => simp [listContainsSub, ih]

theorem pyIn_concat (pre pat : String) : pyIn pat (pre ++ pat) = true := by
  unfold pyIn
  rw [String.data_append]
  exact listContainsSub_suffix _ _

/-- When the `x-payment` header is present and truthy, the guard proceeds to
the decode phase with it. -/
theorem guardCall_with_xpayment (g : PaymentRequirements) (d : String → DecodeOutcome)
    (f : FacOracle) (hs : List (String × String)) (X : String)
    (hx : (lowerHeaders hs).lookup "x-payment" = some X) (hX : X ≠ "") :
    guardCall g d f hs =
      decodePhase g d f (some X)
        (pyOrStr ((lowerHeaders hs).lookup "x-payment-hash")
          ((lowerHeaders hs).lookup "x-paymenthash")) := by
  unfold guardCall
  dsimp only
  rw [hx]
  have hXe : X.isEmpty = false := by
    cases h : X.isEmpty
    · rfl
    · exact absurd ((String.isEmpty_iff X).mp h) hX
  have ht : optStrTruthy (some X) = true := by simp [optStrTruthy, hXe]
  simp [ht]

theorem ne_empty_isEmpty {s : String} (h : s ≠ "") : s.isEmpty = false := by
  cases he : s.isEmpty
  · rfl
  · exact absurd ((String.isEmpty_iff s).mp he) h

/-! ### Concrete fixtures used by witnesses and counterexamples -/

/-- A guard as `main.py:275-288` constructs one for the `/photos` route. -/
def demoReqs : PaymentRequirements :=
  X402init "base-sepolia" "0xPayTo" "0xAsset" "USDC" "10000" "res-photos" "premium photos"

/-- A decode oracle that always fails (the header is never decoded on the
paths these fixtures exercise, or fails to decode where they need it to). -/
def decFail : String → DecodeOutcome := fun _ => DecodeOutcome.err "bad base64"

/-- A decode oracle whose payload carries `payload.authorization.nonce = "0XABC"`. -/
def decUpperNonce : String → DecodeOutcome := fun _ =>
  DecodeOutcome.ok (Json.obj [("payload", Json.obj
    [("authorization", Json.obj [("nonce", Json.str "0XABC")])])])

/-- A facilitator whose verify always fails with error `"rejected"`. -/
def facReject : FacOracle :=
  { verify := fun _ => Json.obj [("success", Json.bool false), ("error", Json.str "rejected")]
    settle := fun _ => Json.obj [] }

/-- A facilitator whose verify succeeds with `verification_id = "v1"` and whose
settle fails with `"insufficient funds"`. -/
def facSettleFail : FacOracle :=
  { verify := fun _ => Json.obj [("success", Json.bool true),
      ("data", Json.obj [("verification_id", Json.str "v1")])]
    settle := fun _ => Json.obj [("success", Json.bool false),
      ("error", Json.str "insufficient funds")] }

/-- Claim C4: whenever `verify_payment` returns `{success: false, error: E}`,
the guard denies with a 402 whose error text contains `E` (it is exactly
`"Payment verification failed: " ++ E`), and `settle_payment` is never called. -/
theorem c4_verify_failure_denies (g : PaymentRequirements)
    (d : String → DecodeOutcome) (f : FacOracle) (hs : List (String × String)) (E : String)
    (hf : ∀ a, f.verify a = Json.obj [("success", Json.bool false), ("error", Json.str E)]) :
    (guardCall g d f hs).settleCalls = [] ∧
    pyIn E ("Payment verification failed: " ++ E) = true ∧
    ((guardCall g d f hs).verifyCalls ≠ [] →
      (guardCall g d f hs).outcome =
        GuardOutcome.http402 ("Payment verification failed: " ++ E) g) := by
  rcases guard_cases g d f hs with ⟨h4, h5⟩ | ⟨v, hv⟩
  · exact ⟨h5, pyIn_concat _ _, fun hcon => absurd h4 hcon⟩
  · rw [hv, hf v, afterVerify_on_failure]
    exact ⟨rfl, pyIn_concat _ _, fun _ => rfl⟩

/-- Witness for C4: facilitator rejects with `"rejected"` — denial carries the
text and no settle call is made. -/
theorem c4_verify_failure_denies_witness :
    (guardCall demoReqs decFail facReject [("x-payment-hash", "abc")]).settleCalls = [] ∧
    (guardCall demoReqs decFail facReject [("x-payment-hash", "abc")]).outcome =
      GuardOutcome.http402 "Payment verification failed: rejected" demoReqs := by
  have h := c4_verify_failure_denies demoReqs decFail facReject
    [("x-payment-hash", "abc")] "rejected" (fun _ => rfl)
  refine ⟨h.1, h.2.2 ?_⟩
  intro hc
  have hv : (guardCall demoReqs decFail facReject [("x-payment-hash", "abc")]).verifyCalls =
      [mkVerifyArgs demoReqs none "abc"] := rfl
  rw [hv] at hc
  exact List.noConfusion hc

/-- Claim C5: when `verify_payment` succeeds yielding a truthy verification
identifier but `settle_payment` returns `{success: false, error: E}`, the
guard denies with a 402 whose error text contains `E` (it is exactly
`"Payment settlement failed: " ++ E`); access is not granted. -/
theorem c5_settle_failure_denies (g : PaymentRequirements)
    (d : String → DecodeOutcome) (f : FacOracle) (hs : List (String × String))
    (D : Json) (E : String)
    (hf : ∀ a, f.verify a = Json.obj [("success", Json.bool true), ("data", D)])
    (hid : optJsonTruthy (idLookup D) = true)
    (hst : ∀ a, f.settle a = Json.obj [("success", Json.bool false), ("error", Json.str E)]) :
    pyIn E ("Payment settlement failed: " ++ E) = true ∧
    ((guardCall g d f hs).verifyCalls ≠ [] →
      (guardCall g d f hs).outcome =
        GuardOutcome.http402 ("Payment settlement failed: " ++ E) g) := by
  rcases guard_cases g d f hs with ⟨h4, _⟩ | ⟨v, hv⟩
  · exact ⟨pyIn_concat _ _, fun hcon => absurd h4 hcon⟩
  · refine ⟨pyIn_concat _ _, fun _ => ?_⟩
    rw [hv, hf v, afterVerify_on_success]
    exact settleStep_settle_fail g f v D E hid hst

/-- Witness for C5: verify succeeds with `verification_id = "v1"`, settle
fails with `"insufficient funds"` — the guard denies with that text. -/
theorem c5_settle_failure_denies_witness :
    (guardCall demoReqs decFail facSettleFail [("x-payment-hash", "abc")]).outcome =
      GuardOutcome.http402 "Payment settlement failed: insufficient funds" demoReqs := by
  have h := c5_settle_failure_denies demoReqs decFail facSettleFail
    [("x-payment-hash", "abc")] (Json.obj [("verification_id", Json.str "v1")])
    "insufficient funds" (fun _ => rfl) (by rfl) (fun _ => rfl)
  refine h.2 ?_
  intro hc
  have hv : (guardCall demoReqs decFail facSettleFail [("x-payment-hash", "abc")]).verifyCalls =
      [mkVerifyArgs demoReqs none "abc"] := rfl
  rw [hv] at hc
  exact List.noConfusion hc

/-- Claim C6: a truthy primary header whose base64/JSON decoding fails makes
the guard deny with a 402 naming the decoding failure, with no facilitator
call of either kind. -/
theorem c6_malformed_payload (g : PaymentRequirements)
    (d : String → DecodeOutcome) (f : FacOracle) (hs : List (String × String))
    (X e : String)
    (hx : (lowerHeaders hs).lookup "x-payment" = some X) (hX : X ≠ "")
    (hdec : d X = DecodeOutcome.err e) :
    guardCall g d f hs =
      ⟨GuardOutcome.http402 ("Invalid X-Payment payload: " ++ e) g, [], []⟩ ∧
    pyIn e ("Invalid X-Payment payload: " ++ e) = true := by
  rw [guardCall_with_xpayment g d f hs X hx hX]
  have ht : optStrTruthy (some X) = true := by
    simp [optStrTruthy, ne_empty_isEmpty hX]
  unfold decodePhase
  rw [show (some X).getD "" = X from rfl]
  simp [ht, hdec, pyIn_concat]

/-- Witness for C6: a malformed primary header — denial naming the failure,
zero facilitator calls. -/
theorem c6_malformed_payload_witness :
    guardCall demoReqs decFail facReject [("X-Payment", "%%%")] =
      ⟨GuardOutcome.http402 "Invalid X-Payment payload: bad base64" demoReqs, [], []⟩ :=
  (c6_malformed_payload demoReqs decFail facReject [("X-Payment", "%%%")]
    "%%%" "bad base64" rfl (by decide) rfl).1

/-- Claim C1 counterexample: with a valid payload whose nonce is `"0XABC"`
(upper-case `0X` prefix), the `transaction_hash` passed to `verify_payment`
is `"0x0xabc"` — a double prefix — not the single-prefix `"0xabc"` the claim
requires: the code checks `startswith("0x")` case-sensitively before
lower-casing. -/
theorem c1_nonce_double_prefix_counterexample :
    (guardCall demoReqs decUpperNonce facReject [("X-Payment", "payload")]).verifyCalls.map
        (fun a => a.transaction_hash) = ["0x0xabc"] ∧
    ("0x0xabc" : String) ≠ "0xabc" := ⟨rfl, by decide⟩

/-- Claim C1 as amended: for a valid decode whose nonce is a non-empty string
`N`, the `transaction_hash` passed to `verify_payment` is `N` stripped, with
`"0x"` prepended only when the stripped `N` does not already start with the
case-sensitive `"0x"`, and then lower-cased — so a nonce beginning `"0X"`
receives a second prefix. -/
theorem c1_nonce_normalization (g : PaymentRequirements)
    (d : String → DecodeOutcome) (f : FacOracle) (hs : List (String × String))
    (X N : String) (j : Json)
    (hx : (lowerHeaders hs).lookup "x-payment" = some X) (hX : X ≠ "")
    (hdec : d X = DecodeOutcome.ok j)
    (hn : extractNonce j = some (Json.str N)) (hN : N ≠ "") :
    (guardCall g d f hs).verifyCalls.map (fun a => a.transaction_hash) =
      [pyLower (if pyStartsWith (pyStrip N) "0x" then pyStrip N else "0x" ++ pyStrip N)] := by
  rw [guardCall_with_xpayment g d f hs X hx hX]
  have ht : optStrTruthy (some X) = true := by
    simp [optStrTruthy, ne_empty_isEmpty hX]
  unfold decodePhase
  rw [show (some X).getD "" = X from rfl]
  simp only [ht, if_true, hdec]
  unfold hashPhase
  dsimp only
  rw [hn]
  have htn : optJsonTruthy (some (Json.str N)) = true := by
    simp [optJsonTruthy, jsonTruthy, ne_empty_isEmpty hN]
  simp only [htn, Bool.not_true, Bool.false_and, Bool.false_eq_true, if_false]
  unfold verifyPhase
  rw [afterVerify_verifyCalls]
  simp [mkVerifyArgs]

/-- Witness for the amended C1: nonce `" Ab "` (whitespace, mixed case, no
prefix) is passed as `"0xab"`. -/
theorem c1_nonce_normalization_witness :
    (guardCall demoReqs
        (fun _ => DecodeOutcome.ok (Json.obj [("payload", Json.obj
          [("authorization", Json.obj [("nonce", Json.str " Ab ")])])]))
        facReject [("X-Payment", "payload")]).verifyCalls.map
      (fun a => a.transaction_hash) = ["0xab"] := by
  have h := c1_nonce_normalization demoReqs
    (fun _ => DecodeOutcome.ok (Json.obj [("payload", Json.obj
      [("authorization", Json.obj [("nonce", Json.str " Ab ")])])]))
    facReject [("X-Payment", "payload")] "payload" " Ab "
    (Json.obj [("payload", Json.obj [("authorization", Json.obj
      [("nonce", Json.str " Ab ")])])])
    rfl (by decide) rfl rfl (by decide)
  rw [h]
  rfl

/-- Claim C7 counterexample: with no payment headers, the guard's observable
outcome is not always a returned `(granted, requirements)` pair, and it is
not agnostic to the Accept header: `Accept: application/json` makes it raise
the 402 itself, while `Accept: text/html` makes it return `(false, reqs)`. -/
theorem c7_accept_sensitivity_counterexample :
    (guardCall demoReqs decFail facReject [("Accept", "application/json")]).outcome =
      GuardOutcome.http402 "X-Payment header is required." demoReqs ∧
    (guardCall demoReqs decFail facReject [("Accept", "text/html")]).outcome =
      GuardOutcome.ret false demoReqs := ⟨rfl, rfl⟩

/-- Claim C7 as amended: on the no-payment-header case the guard itself
branches on the Accept header — it returns the `(false, requirements)` pair
(for the caller's paywall) exactly when Accept contains `text/html`, and
otherwise raises the 402 challenge directly; either way no facilitator call
is made. -/
theorem c7_no_header_accept (g : PaymentRequirements)
    (d : String → DecodeOutcome) (f : FacOracle) (hs : List (String × String))
    (h1 : optStrTruthy ((lowerHeaders hs).lookup "x-payment") = false)
    (h2 : optStrTruthy ((lowerHeaders hs).lookup "x-payment-hash") = false)
    (h3 : optStrTruthy ((lowerHeaders hs).lookup "x-paymenthash") = false) :
    (pyIn "text/html" (((lowerHeaders hs).lookup "accept").getD "") = true →
      guardCall g d f hs = ⟨GuardOutcome.ret false g, [], []⟩) ∧
    (pyIn "text/html" (((lowerHeaders hs).lookup "accept").getD "") = false →
      guardCall g d f hs = ⟨GuardOutcome.http402 "X-Payment header is required." g, [], []⟩) := by
  have hph : optStrTruthy (pyOrStr ((lowerHeaders hs).lookup "x-payment-hash")
      ((lowerHeaders hs).lookup "x-paymenthash")) = false := by
    unfold pyOrStr
    rw [h2]
    simp [h3]
  constructor <;> intro hacc <;>
    simp [guardCall, noHeaderBranch, h1, hph, hacc]

/-- Witness for the amended C7: the two Accept values produce the two
branches. -/
theorem c7_no_header_accept_witness :
    guardCall demoReqs decFail facReject [("Accept", "text/html")] =
      ⟨GuardOutcome.ret false demoReqs, [], []⟩ ∧
    guardCall demoReqs decFail facReject [("Accept", "application/json")] =
      ⟨GuardOutcome.http402 "X-Payment header is required." demoReqs, [], []⟩ :=
  ⟨(c7_no_header_accept demoReqs decFail facReject [("Accept", "text/html")]
      rfl rfl rfl).1 rfl,
   (c7_no_header_accept demoReqs decFail facReject [("Accept", "application/json")]
      rfl rfl rfl).2 rfl⟩

/-- Claim C8: with neither payment header present (case-insensitively), the
guard denies — returning `(false, reqs)` or raising the 402 — and the
requirements carried are exactly the configured construction-time values
(scheme `"exact"`, and the constructor's network, asset, amount, payTo),
unchanged by the request. -/
theorem c8_no_header_denial (network payTo asset assetName amt resrc desc : String)
    (d : String → DecodeOutcome) (f : FacOracle) (hs : List (String × String))
    (h : ∀ kv ∈ hs, pyLower kv.1 ≠ "x-payment" ∧ pyLower kv.1 ≠ "x-payment-hash" ∧
      pyLower kv.1 ≠ "x-paymenthash") :
    ((guardCall (X402init network payTo asset assetName amt resrc desc) d f hs).outcome =
        GuardOutcome.ret false (X402init network payTo asset assetName amt resrc desc) ∨
      (guardCall (X402init network payTo asset assetName amt resrc desc) d f hs).outcome =
        GuardOutcome.http402 "X-Payment header is required."
          (X402init network payTo asset assetName amt resrc desc)) ∧
    (X402init network payTo asset assetName amt resrc desc).scheme = "exact" ∧
    (X402init network payTo asset assetName amt resrc desc).network = network ∧
    (X402init network payTo asset assetName amt resrc desc).asset = asset ∧
    (X402init network payTo asset assetName amt resrc desc).maxAmountRequired = amt ∧
    (X402init network payTo asset assetName amt resrc desc).payTo = payTo := by
  have h1 := lowerHeaders_lookup_none hs "x-payment" (fun kv hkv => (h kv hkv).1)
  have h2 := lowerHeaders_lookup_none hs "x-payment-hash" (fun kv hkv => (h kv hkv).2.1)
  have h3 := lowerHeaders_lookup_none hs "x-paymenthash" (fun kv hkv => (h kv hkv).2.2)
  refine ⟨?_, rfl, rfl, rfl, rfl, rfl⟩
  have hb : guardCall (X402init network payTo asset assetName amt resrc desc) d f hs =
      noHeaderBranch (X402init network payTo asset assetName amt resrc desc)
        (((lowerHeaders hs).lookup "accept").getD "") := by
    unfold guardCall
    dsimp only
    rw [h1, h2, h3]
    rfl
  rw [hb]
  unfold noHeaderBranch
  split
  · exact Or.inl rfl
  · exact Or.inr rfl

/-- Witness for C8: an unrelated header only — denial echoing the configured
requirements. -/
theorem c8_no_header_denial_witness :
    ((guardCall (X402init "base-sepolia" "0xPayTo" "0xAsset" "USDC" "10000" "r" "d")
        decFail facReject [("User-Agent", "curl")]).outcome =
      GuardOutcome.ret false (X402init "base-sepolia" "0xPayTo" "0xAsset" "USDC" "10000" "r" "d") ∨
    (guardCall (X402init "base-sepolia" "0xPayTo" "0xAsset" "USDC" "10000" "r" "d")
        decFail facReject [("User-Agent", "curl")]).outcome =
      GuardOutcome.http402 "X-Payment header is required."
        (X402init "base-sepolia" "0xPayTo" "0xAsset" "USDC" "10000" "r" "d")) ∧
    (X402init "base-sepolia" "0xPayTo" "0xAsset" "USDC" "10000" "r" "d").network =
      "base-sepolia" :=
  ⟨(c8_no_header_denial "base-sepolia" "0xPayTo" "0xAsset" "USDC" "10000" "r" "d"
      decFail facReject [("User-Agent", "curl")]
      (by intro kv hkv; simp at hkv; subst hkv; exact ⟨by decide, by decide, by decide⟩)).1,
   rfl⟩

/-- Claim C9 counterexample: `FacilitatorClient.__init__` performs no
validation — constructing it with an empty base URL succeeds rather than
failing, contradicting the claim that construction with empty/missing
required fields fails. -/
theorem c9_construct_counterexample :
    FacilitatorClient.construct "" = Except.ok "" := rfl

/-- Claim C9 as amended: missing/empty required configuration is rejected as
a hard error by `Settings.validate` (run at import, before any request is
served); the `FacilitatorClient` constructor itself performs no validation
and always succeeds, even on an empty base URL. -/
theorem c9_config_validation :
    (∀ e : Env,
      (optStrTruthy e.MERCHANT_PAYOUT_WALLET = false ∨
        optStrTruthy e.OXMETA_TREASURY_WALLET = false ∨
        optStrTruthy e.FACILITATOR_BASE_URL = false) →
      ∃ m, Settings.validate e = Except.error m) ∧
    (∀ b : String, FacilitatorClient.construct b = Except.ok b) := by
  constructor
  · intro e h
    unfold Settings.validate
    repeat' split
    all_goals first
      | exact ⟨_, rfl⟩
      | (exfalso; rcases h with h | h | h <;> simp_all)
  · intro b
    rfl

/-- Witness for the amended C9: an environment with no merchant wallet fails
validation; the client constructor accepts any URL. -/
theorem c9_config_validation_witness :
    (∃ m, Settings.validate ⟨none, some "0xT", some "http", none⟩ = Except.error m) ∧
    FacilitatorClient.construct "u" = Except.ok "u" :=
  ⟨c9_config_validation.1 ⟨none, some "0xT", some "http", none⟩ (Or.inl rfl),
   c9_config_validation.2 "u"⟩

/-- Claim C2 counterexample: a 200 response whose body fails JSON decoding
makes both `verify_payment` and `settle_payment` raise the decoding error
past their boundary (the try/except wraps only `client.post`, not
`resp.json()`), contradicting "never raise an exception past their boundary
for every input". -/
theorem c2_raise_on_200_nonjson_counterexample :
    FacilitatorClient.verify_payment
        (Transport.resp ⟨200, Except.error "Expecting value", "not-json"⟩) =
      CallResult.raised "Expecting value" ∧
    FacilitatorClient.settle_payment
        (Transport.resp ⟨200, Except.error "Expecting value", "not-json"⟩) =
      CallResult.raised "Expecting value" := ⟨rfl, rfl⟩

/-- Claim C2 as amended: both facilitator-client calls classify the outcome
as `{success: true, data}` exactly on a 200 response with a JSON body, as
`{success: false, error, status_code}` on any non-200 response, and convert
transport exceptions into `{success: false, error}`; the only way either
raises past its boundary is a 200 response whose body fails JSON decoding. -/
theorem c2_facilitator_classification : ∀ t : Transport,
    ((∃ e, FacilitatorClient.verify_payment t = CallResult.raised e) ↔
      (∃ r e, t = Transport.resp r ∧ r.status_code = 200 ∧ r.jsonBody = Except.error e)) ∧
    ((∃ e, FacilitatorClient.settle_payment t = CallResult.raised e) ↔
      (∃ r e, t = Transport.resp r ∧ r.status_code = 200 ∧ r.jsonBody = Except.error e)) ∧
    (∀ e, t = Transport.exn e →
      FacilitatorClient.verify_payment t =
        CallResult.ret (Json.obj [("success", Json.bool false), ("error", Json.str e)]) ∧
      FacilitatorClient.settle_payment t =
        CallResult.ret (Json.obj [("success", Json.bool false), ("error", Json.str e)])) ∧
    (∀ r dta, t = Transport.resp r → r.status_code = 200 → r.jsonBody = Except.ok dta →
      FacilitatorClient.verify_payment t =
        CallResult.ret (Json.obj [("success", Json.bool true), ("data", dta)]) ∧
      FacilitatorClient.settle_payment t =
        CallResult.ret (Json.obj [("success", Json.bool true), ("data", dta)])) ∧
    (∀ r, t = Transport.resp r → r.status_code ≠ 200 →
      FacilitatorClient.verify_payment t =
        CallResult.ret (Json.obj [("success", Json.bool false),
          ("error", Json.str ("HTTP " ++ toString r.status_code ++ ": " ++ r.text)),
          ("status_code", Json.num (r.status_code : Int))]) ∧
      FacilitatorClient.settle_payment t =
        CallResult.ret (Json.obj [("success", Json.bool false),
          ("error", Json.str ("HTTP " ++ toString r.status_code ++ ": " ++ r.text)),
          ("status_code", Json.num (r.status_code : Int))])) := by
  intro t
  rcases t with e | r
  · refine ⟨?_, ?_, ?_, ?_, ?_⟩
    · constructor
      · rintro ⟨e2, h⟩; exact CallResult.noConfusion h
      · rintro ⟨r2, e2, heq, _⟩; exact Transport.noConfusion heq
    · constructor
      · rintro ⟨e2, h⟩; exact CallResult.noConfusion h
      · rintro ⟨r2, e2, heq, _⟩; exact Transport.noConfusion heq
    · rintro e2 heq
      injection heq with he
      subst he
      exact ⟨rfl, rfl⟩
    · rintro r2 dta2 heq; exact Transport.noConfusion heq
    · rintro r2 heq; exact Transport.noConfusion heq
  · rcases r with ⟨sc, jb, tx⟩
    by_cases h200 : sc = 200
    · subst h200
      rcases jb with e | dta
      · refine ⟨?_, ?_, ?_, ?_, ?_⟩
        · exact ⟨fun _ => ⟨⟨200, Except.error e, tx⟩, e, rfl, rfl, rfl⟩, fun _ => ⟨e, rfl⟩⟩
        · exact ⟨fun _ => ⟨⟨200, Except.error e, tx⟩, e, rfl, rfl, rfl⟩, fun _ => ⟨e, rfl⟩⟩
        · rintro e2 heq; exact Transport.noConfusion heq
        · rintro r2 dta2 heq _ hjb
          injection heq with he
          subst he
          exact Except.noConfusion hjb
        · rintro r2 heq hne
          injection heq with he
          subst he
          exact absurd rfl hne
      · refine ⟨?_, ?_, ?_, ?_, ?_⟩
        · constructor
          · rintro ⟨e2, h⟩; exact CallResult.noConfusion h
          · rintro ⟨r2, e2, heq, _, hjb⟩
            injection heq with he
            subst he
            exact Except.noConfusion hjb
        · constructor
          · rintro ⟨e2, h⟩; exact CallResult.noConfusion h
          · rintro ⟨r2, e2, heq, _, hjb⟩
            injection heq with he
            subst he
            exact Except.noConfusion hjb
        · rintro e2 heq; exact Transport.noConfusion heq
        · rintro r2 dta2 heq _ hjb
          injection heq with he
          subst he
          have hd : dta = dta2 := by injection hjb
          subst hd
          exact ⟨rfl, rfl⟩
        · rintro r2 heq hne
          injection heq with he
          subst he
          exact absurd rfl hne
    · refine ⟨?_, ?_, ?_, ?_, ?_⟩
      · constructor
        · rintro ⟨e2, h⟩
          rw [show FacilitatorClient.verify_payment (Transport.resp ⟨sc, jb, tx⟩) =
              CallResult.ret (Json.obj [("success", Json.bool false),
                ("error", Json.str ("HTTP " ++ toString sc ++ ": " ++ tx)),
                ("status_code", Json.num (sc : Int))]) from by
            unfold FacilitatorClient.verify_payment
            simp [h200]] at h
          exact CallResult.noConfusion h
        · rintro ⟨r2, e2, heq, hsc, _⟩
          injection heq with he
          subst he
          exact absurd hsc h200
      · constructor
        · rintro ⟨e2, h⟩
          rw [show FacilitatorClient.settle_payment (Transport.resp ⟨sc, jb, tx⟩) =
              CallResult.ret (Json.obj [("success", Json.bool false),
                ("error", Json.str ("HTTP " ++ toString sc ++ ": " ++ tx)),
                ("status_code", Json.num (sc : Int))]) from by
            unfold FacilitatorClient.settle_payment
            simp [h200]] at h
          exact CallResult.noConfusion h
        · rintro ⟨r2, e2, heq, hsc, _⟩
          injection heq with he
          subst he
          exact absurd hsc h200
      · rintro e2 heq; exact Transport.noConfusion heq
      · rintro r2 dta2 heq hsc _
        injection heq with he
        subst he
        exact absurd hsc h200
      · rintro r2 heq _
        injection heq with he
        subst he
        constructor
        · unfold FacilitatorClient.verify_payment
          simp [h200]
        · unfold FacilitatorClient.settle_payment
          simp [h200]

/-- Witness for the amended C2: a transport exception becomes a failure
result; a 404 becomes a failure result with the status code; a 200 JSON body
becomes a success result. -/
theorem c2_facilitator_classification_witness :
    FacilitatorClient.verify_payment (Transport.exn "boom") =
      CallResult.ret (Json.obj [("success", Json.bool false), ("error", Json.str "boom")]) ∧
    FacilitatorClient.settle_payment (Transport.resp ⟨404, Except.ok Json.null, "nf"⟩) =
      CallResult.ret (Json.obj [("success", Json.bool false),
        ("error", Json.str "HTTP 404: nf"), ("status_code", Json.num 404)]) ∧
    FacilitatorClient.verify_payment (Transport.resp ⟨200, Except.ok (Json.obj []), "ok"⟩) =
      CallResult.ret (Json.obj [("success", Json.bool true), ("data", Json.obj [])]) :=
  ⟨((c2_facilitator_classification (Transport.exn "boom")).2.2.1 "boom" rfl).1,
   (((c2_facilitator_classification (Transport.resp ⟨404, Except.ok Json.null, "nf"⟩)).2.2.2.2
      ⟨404, Except.ok Json.null, "nf"⟩ rfl (by decide))).2,
   (((c2_facilitator_classification (Transport.resp ⟨200, Except.ok (Json.obj []), "ok"⟩)).2.2.2.1
      ⟨200, Except.ok (Json.obj []), "ok"⟩ (Json.obj []) rfl rfl rfl)).1⟩
